import Mathlib

/-!
# arptest: a shallow embedding of `arptest.c`

The program sends one ARP request on a packet socket and waits for a matching
reply.  The embedding below follows `src/arptest.c`:

* `check_reply` (lines 59-76) over the fields of `struct ether_arp`;
* `main` (lines 78-204) as a pure function of the results of the library and
  system calls it makes, which are collected in `Env`.

Bytes are natural numbers below 256, byte arrays are lists.  The host byte
order is a parameter (`le = true` for a little-endian host), so that the
`htons` comparisons of the source are modelled on both kinds of host.
-/

namespace Arptest

/-! ## Constants of the source and of the system headers -/

/-- `#define ERR_SUCCESS 0` (line 41). -/
def ERR_SUCCESS : Int := 0
/-- `#define ERR_FAIL 1` (line 42). -/
def ERR_FAIL : Int := 1
/-- `#define ERR_ARGS 2` (line 43). -/
def ERR_ARGS : Int := 2
/-- `#define ERR_SYS 3` (line 44). -/
def ERR_SYS : Int := 3

/-- `ARPHRD_ETHER` of `net/if_arp.h`. -/
def ARPHRD_ETHER : Nat := 1
/-- `ETH_P_IP` of `net/ethernet.h`. -/
def ETH_P_IP : Nat := 0x0800
/-- `ETHER_ADDR_LEN` of `net/ethernet.h`. -/
def ETHER_ADDR_LEN : Nat := 6
/-- `sizeof(in_addr_t)`. -/
def sizeof_in_addr_t : Nat := 4
/-- `ARPOP_REQUEST` of `net/if_arp.h`. -/
def ARPOP_REQUEST : Nat := 1
/-- `ARPOP_REPLY` of `net/if_arp.h`. -/
def ARPOP_REPLY : Nat := 2
/-- `EINTR` of `errno.h` on Linux. -/
def EINTR : Nat := 4
/-- `sizeof(struct ether_arp)`: 8 bytes of header and 6 + 4 + 6 + 4 of addresses. -/
def sizeof_ether_arp : Nat := 28
/-- `sizeof(req->arp_sha)`, the size of `uint8_t arp_sha[ETH_ALEN]`. -/
def sizeof_arp_sha : Nat := 6
/-- `sizeof(req->arp_spa)`, the size of `uint8_t arp_spa[4]`. -/
def sizeof_arp_spa : Nat := 4
/-- `sizeof(req->arp_tha)`, the size of `uint8_t arp_tha[ETH_ALEN]`. -/
def sizeof_arp_tha : Nat := 6
/-- `sizeof(req->arp_tpa)`, the size of `uint8_t arp_tpa[4]`. -/
def sizeof_arp_tpa : Nat := 4

/-! ## Byte order -/

/-- `htons`: on a little-endian host the two bytes of the 16-bit value are
swapped, on a big-endian host the value is unchanged. -/
def htons (le : Bool) (x : Nat) : Nat :=
  if le then (x % 256) * 256 + (x / 256) % 256 else x % 65536

/-- `ntohs` is the same byte swap as `htons`. -/
def ntohs (le : Bool) (x : Nat) : Nat := htons le x

/-- A `uint16_t` read by the host from two consecutive bytes of memory. -/
def load16 (le : Bool) (b0 b1 : Nat) : Nat :=
  if le then b0 + 256 * b1 else 256 * b0 + b1

/-- The two bytes of memory the host writes for a `uint16_t`. -/
def store16 (le : Bool) (x : Nat) : List Nat :=
  if le then [x % 256, (x / 256) % 256] else [(x / 256) % 256, x % 256]

/-! ## `struct ether_arp` -/

/-- The fields of `struct ether_arp` (`netinet/if_ether.h`).  The 16-bit
fields hold the value the host reads from memory. -/
structure ether_arp where
  arp_hrd : Nat
  arp_pro : Nat
  arp_hln : Nat
  arp_pln : Nat
  arp_op : Nat
  arp_sha : List Nat
  arp_spa : List Nat
  arp_tha : List Nat
  arp_tpa : List Nat
  deriving DecidableEq, Repr

/-- The object representation of a `struct ether_arp`: 28 bytes, no padding. -/
def ether_arp.toBytes (le : Bool) (a : ether_arp) : List Nat :=
  store16 le a.arp_hrd ++ store16 le a.arp_pro ++ [a.arp_hln, a.arp_pln]
    ++ store16 le a.arp_op ++ a.arp_sha ++ a.arp_spa ++ a.arp_tha ++ a.arp_tpa

/-- The `struct ether_arp` the host sees in a 28-byte region of memory. -/
def ether_arp.ofBytes (le : Bool) (m : List Nat) : ether_arp :=
  { arp_hrd := load16 le (m.getD 0 0) (m.getD 1 0)
    arp_pro := load16 le (m.getD 2 0) (m.getD 3 0)
    arp_hln := m.getD 4 0
    arp_pln := m.getD 5 0
    arp_op := load16 le (m.getD 6 0) (m.getD 7 0)
    arp_sha := (m.drop 8).take 6
    arp_spa := (m.drop 14).take 4
    arp_tha := (m.drop 18).take 6
    arp_tpa := (m.drop 24).take 4 }

/-! ## `check_reply` -/

/-- C `strncmp` on byte arrays: compares at most `n` bytes as unsigned
characters, stops at the first difference and at the first zero byte.  Every
call of the source passes arrays of `n` bytes, so the end of a list is never
reached before `n` runs out. -/
def strncmp : List Nat → List Nat → Nat → Int
  | _, _, 0 => 0
  | [], _, _ + 1 => 0
  | _ :: _, [], _ + 1 => 0
  | a :: as, b :: bs, n + 1 =>
    if a ≠ b then (a : Int) - (b : Int)
    else if a = 0 then 0
    else strncmp as bs n

/-- `check_reply` (lines 59-76). -/
def check_reply (le : Bool) (req reply : ether_arp) : Int :=
  if reply.arp_hrd ≠ htons le ARPHRD_ETHER
      ∨ reply.arp_pro ≠ htons le ETH_P_IP
      ∨ reply.arp_hln ≠ ETHER_ADDR_LEN
      ∨ reply.arp_pln ≠ sizeof_in_addr_t
      ∨ reply.arp_op ≠ htons le ARPOP_REPLY then
    ERR_FAIL
  else if strncmp reply.arp_spa req.arp_tpa sizeof_arp_tpa = 0
      ∧ strncmp reply.arp_tha req.arp_sha sizeof_arp_sha = 0
      ∧ strncmp reply.arp_tpa req.arp_spa sizeof_arp_spa = 0 then
    ERR_SUCCESS
  else
    ERR_FAIL

/-! ## Library functions used by `main` -/

/-- C `isspace` in the "C" locale. -/
def isspace (c : Char) : Bool :=
  c = ' ' || c = '\t' || c = '\n' || c = '\x0b' || c = '\x0c' || c = '\r'

/-- The decimal digits at the start of a string, accumulated into `acc`. -/
def atoi_digits : Int → List Char → Int
  | acc, [] => acc
  | acc, c :: cs =>
    if c.isDigit then atoi_digits (acc * 10 + ((c.toNat : Int) - 48)) cs else acc

/-- `LONG_MAX` for a 64-bit `long`. -/
def LONG_MAX : Int := 9223372036854775807
/-- `LONG_MIN` for a 64-bit `long`. -/
def LONG_MIN : Int := -9223372036854775808

/-- C `strtol(s, NULL, 10)`: leading white space, an optional sign, then decimal
digits; what follows the digits is ignored and a string without digits gives 0.
A value outside the range of `long` gives `LONG_MAX` or `LONG_MIN`. -/
def strtol (s : String) : Int :=
  let v : Int :=
    match s.toList.dropWhile isspace with
    | '-' :: cs => - atoi_digits 0 cs
    | '+' :: cs => atoi_digits 0 cs
    | cs => atoi_digits 0 cs
  if v > LONG_MAX then LONG_MAX else if v < LONG_MIN then LONG_MIN else v

/-- Conversion of a `long` to `int` (32 bits): the low 32 bits, read as signed. -/
def to_int (v : Int) : Int := (v + 2147483648) % 4294967296 - 2147483648

/-- C `atoi` as the C library defines it: `(int) strtol(s, NULL, 10)`. -/
def atoi (s : String) : Int := to_int (strtol s)

/-- Conversion of an `int` to `unsigned int` (32 bits): reduction modulo 2^32. -/
def to_unsigned (v : Int) : Nat := (v % 4294967296).toNat

/-- The `printf` conversion `%02X`: upper-case hexadecimal, padded with zeros
on the left to two characters. -/
def printf_02X (v : Nat) : List Char :=
  let ds := (Nat.toDigits 16 v).map Char.toUpper
  List.replicate (2 - ds.length) '0' ++ ds

/-- The output of `printf("%02X:%02X:%02X:%02X:%02X:%02X\n", ...)` of lines
195-201 for the six bytes of `response.arp_sha`. -/
def printf_mac (sha : List Nat) : String :=
  String.mk (printf_02X (sha.getD 0 0) ++ ':' :: printf_02X (sha.getD 1 0)
    ++ ':' :: printf_02X (sha.getD 2 0) ++ ':' :: printf_02X (sha.getD 3 0)
    ++ ':' :: printf_02X (sha.getD 4 0) ++ ':' :: printf_02X (sha.getD 5 0) ++ ['\n'])

/-! ## The receive loop -/

/-- What one call of `recvfrom` on the socket does: it delivers a datagram,
or it fails and sets `errno`. -/
inductive RecvEvent where
  | datagram (data : List Nat)
  | fail (e : Nat)
  deriving DecidableEq, Repr

/-- `recvfrom(sock, &response, len, 0, NULL, NULL)`: the return value, the new
`errno` and the new content of the buffer.  A datagram overwrites the first
`min (length data) len` bytes of the buffer, returns that count and leaves
`errno` alone; a failure returns -1, sets `errno` and leaves the buffer. -/
def recvfrom (errno : Nat) (buf : List Nat) (len : Nat) : RecvEvent → Int × Nat × List Nat
  | .datagram data =>
    let n := min data.length len
    ((n : Int), errno, data.take n ++ buf.drop n)
  | .fail e => (-1, e, buf)

/-- How the `do ... while` loop of lines 181-192 is left: `main` returns from
inside it, or the condition fails with a reply in `response`; `blocked` when
the events run out, so that `recvfrom` has not returned. -/
inductive LoopExit where
  | blocked
  | returned (code : Int)
  | matched (response : List Nat)
  deriving DecidableEq, Repr

/-- The `do ... while (check_reply(&req, &response))` loop of lines 181-192,
from the value of `errno` and the content of `response` before it. -/
def receive_loop (le : Bool) (req : ether_arp) : Nat → List Nat → List RecvEvent → LoopExit
  | _, _, [] => .blocked
  | errno, response, ev :: rest =>
    match recvfrom errno response sizeof_ether_arp ev with
    | (recv_ret, errno1, response1) =>
      if recv_ret ≤ 0 then
        if errno1 = EINTR then .returned ERR_FAIL else .returned ERR_SYS
      else if check_reply le req (ether_arp.ofBytes le response1) ≠ 0 then
        receive_loop le req errno1 response1 rest
      else
        .matched response1

/-- Lines 179-203 of `main`: the receive loop, then the `printf` of the
sender hardware address.  The result is the exit status (`none` while
`recvfrom` blocks) and what was written to standard output. -/
def wait_reply (le : Bool) (req : ether_arp) (errno : Nat) (response : List Nat)
    (events : List RecvEvent) : Option Int × String :=
  match receive_loop le req errno response events with
  | .blocked => (none, "")
  | .returned code => (some code, "")
  | .matched response1 =>
    (some ERR_SUCCESS, printf_mac (ether_arp.ofBytes le response1).arp_sha)

/-! ## `main` -/

/-- The fields of `struct sockaddr_ll` that `main` reads after `getsockname`. -/
structure sockaddr_ll where
  sll_halen : Nat
  sll_addr : List Nat
  deriving DecidableEq, Repr

/-- The results of the library and system calls of one run of `main`. -/
structure Env where
  /-- Host byte order: `true` on a little-endian host. -/
  le : Bool
  /-- The successive results of `getopt` before it returns -1, each with `optarg`. -/
  opts : List (Char × String)
  /-- The arguments `argv[optind] ... argv[argc-1]`. -/
  args : List String
  /-- `inet_aton`: the four bytes stored in `ipaddr.s_addr`, `none` when it does not return 1. -/
  inet_aton : String → Option (List Nat)
  /-- The return value of `find_device(&iface)`. -/
  find_device : Int
  /-- The return value of `socket`. -/
  socket : Int
  /-- The return value of `bind`. -/
  bind : Int
  /-- The return value of `getsockname`. -/
  getsockname : Int
  /-- The address `getsockname` stores in `me`. -/
  me : sockaddr_ll
  /-- The return value of `sendto`. -/
  sendto : Int
  /-- The return value of `sigaction`. -/
  sigaction : Int
  /-- The value of `errno` when the receive loop is entered. -/
  errno : Nat
  /-- The bytes of the uninitialised `response` when the receive loop is entered. -/
  response : List Nat
  /-- What the successive calls of `recvfrom` do. -/
  recv : List RecvEvent

/-- What a run of `main` does that can be observed from outside. -/
structure Result where
  /-- The exit status, `none` while `recvfrom` blocks. -/
  status : Option Int
  /-- What was written to standard output. -/
  stdout : String
  /-- The bytes `sendto` was called with, `none` when it was not called. -/
  sendto_arg : Option (List Nat)
  /-- The argument of `alarm`, `none` when it was not called. -/
  alarm_arg : Option Nat
  deriving DecidableEq, Repr

/-- The `getopt` loop of lines 84-97, from the current value of `timeout`:
the timeout in the end, or the status `main` returns. -/
def getopt_loop : Nat → List (Char × String) → Except Int Nat
  | timeout, [] => .ok timeout
  | _, (ch, optarg) :: rest =>
    if ch = 'w' then
      let timeout := to_unsigned (atoi optarg)
      if timeout = 0 then .error ERR_ARGS else getopt_loop timeout rest
    else
      .error ERR_ARGS

/-- The ARP request of lines 151-161. -/
def build_request (le : Bool) (me : sockaddr_ll) (s_addr : List Nat) : ether_arp :=
  { arp_hrd := htons le ARPHRD_ETHER
    arp_pro := htons le ETH_P_IP
    arp_hln := ETHER_ADDR_LEN
    arp_pln := sizeof_in_addr_t
    arp_op := htons le ARPOP_REQUEST
    arp_sha := me.sll_addr.take sizeof_arp_sha
    arp_spa := List.replicate sizeof_arp_spa 0
    arp_tha := List.replicate sizeof_arp_tha 0
    arp_tpa := s_addr.take sizeof_arp_tpa }

/-- `main` (lines 78-204).  What `usage`, `fprintf(stderr, ...)` and `perror`
write to standard error is left out. -/
def main (env : Env) : Result :=
  match getopt_loop 1 env.opts with
  | .error code => ⟨some code, "", none, none⟩
  | .ok timeout =>
    match env.args with
    | [_, ip] =>
      match env.inet_aton ip with
      | none => ⟨some ERR_ARGS, "", none, none⟩
      | some s_addr =>
        if env.find_device ≠ 0 then ⟨some ERR_SYS, "", none, none⟩
        else if env.socket = -1 then ⟨some ERR_SYS, "", none, none⟩
        else if env.bind = -1 then ⟨some ERR_SYS, "", none, none⟩
        else if env.getsockname = -1 then ⟨some ERR_SYS, "", none, none⟩
        else if env.me.sll_halen = 0 then ⟨some ERR_SYS, "", none, none⟩
        else
          let req := build_request env.le env.me s_addr
          let frame := (req.toBytes env.le).take sizeof_ether_arp
          if env.sendto = -1 then ⟨some ERR_SYS, "", some frame, none⟩
          else if env.sigaction < 0 then ⟨some ERR_SYS, "", some frame, none⟩
          else
            match wait_reply env.le req env.errno env.response env.recv with
            | (status, out) => ⟨status, out, some frame, some timeout⟩
    | _ => ⟨some ERR_ARGS, "", none, none⟩

/-! ## The line of output the specification prescribes -/

/-- The sixteen upper-case hexadecimal digits. -/
def spec_hex_digits : List Char := "0123456789ABCDEF".toList

/-- A byte as two upper-case hexadecimal digits, zero-padded. -/
def spec_hex2 (b : Nat) : List Char :=
  [spec_hex_digits.getD (b / 16) '?', spec_hex_digits.getD (b % 16) '?']

/-- The line the specification prescribes for a hardware address: six bytes as
two hexadecimal digits each, separated by single colons, then a newline. -/
def spec_mac_line (b0 b1 b2 b3 b4 b5 : Nat) : String :=
  String.mk (spec_hex2 b0 ++ [':'] ++ spec_hex2 b1 ++ [':'] ++ spec_hex2 b2 ++ [':']
    ++ spec_hex2 b3 ++ [':'] ++ spec_hex2 b4 ++ [':'] ++ spec_hex2 b5 ++ ['\n'])

/-- The reply the specification synthesizes for a request `req` and a hardware
address `X`: `op = 2`, `sha = X`, `spa = req.tpa`, `tha = req.sha`,
`tpa = req.spa`, with the Ethernet/IPv4 header in network byte order. -/
def synth_reply (le : Bool) (req : ether_arp) (X : List Nat) : ether_arp :=
  { arp_hrd := htons le 1
    arp_pro := htons le 0x0800
    arp_hln := 6
    arp_pln := 4
    arp_op := htons le 2
    arp_sha := X
    arp_spa := req.arp_tpa
    arp_tha := req.arp_sha
    arp_tpa := req.arp_spa }

/-! ## Concrete runs -/

/-- The request of the examples: the probe for 192.0.2.5 sent from the interface
with hardware address 02:00:00:00:00:01. -/
def req_example (le : Bool) : ether_arp :=
  build_request le ⟨6, [2, 0, 0, 0, 0, 1, 0, 0]⟩ [192, 0, 2, 5]

/-- An ARP reply of the host 192.0.2.99 (hardware address 02:00:00:00:00:63) to a
probe for its own address sent from the same interface. -/
def reply_other_host (le : Bool) : ether_arp :=
  { arp_hrd := htons le ARPHRD_ETHER
    arp_pro := htons le ETH_P_IP
    arp_hln := ETHER_ADDR_LEN
    arp_pln := sizeof_in_addr_t
    arp_op := htons le ARPOP_REPLY
    arp_sha := [2, 0, 0, 0, 0, 0x63]
    arp_spa := [192, 0, 2, 99]
    arp_tha := [2, 0, 0, 0, 0, 1]
    arp_tpa := [0, 0, 0, 0] }

/-- An ARP request (`op = 1`) that carries the addresses of a matching reply. -/
def request_as_reply (le : Bool) : ether_arp :=
  { synth_reply le (req_example le) [2, 0, 0, 0, 0, 0xFE] with arp_op := htons le ARPOP_REQUEST }

/-- A run in which every call succeeds: little-endian host, `-w 2 eth0 192.0.2.5`,
interface address 02:00:00:00:00:01, and one reply from 02:00:00:00:00:FE. -/
def env_example : Env :=
  { le := true
    opts := [('w', "2")]
    args := ["eth0", "192.0.2.5"]
    inet_aton := fun _ => some [192, 0, 2, 5]
    find_device := 0
    socket := 3
    bind := 0
    getsockname := 0
    me := ⟨6, [2, 0, 0, 0, 0, 1, 0, 0]⟩
    sendto := 28
    sigaction := 0
    errno := 0
    response := List.replicate 28 0
    recv := [.datagram [0, 1, 8, 0, 6, 4, 0, 2, 2, 0, 0, 0, 0, 0xFE, 192, 0, 2, 5,
      2, 0, 0, 0, 0, 1, 0, 0, 0, 0]] }

/-- The run of `env_example` with `-w -1` on the command line. -/
def env_negative_timeout : Env := { env_example with opts := [('w', "-1")] }

/-- An ARP reply of another host (198.51.100.7) to this interface: 28 bytes. -/
def foreign_frame : List Nat :=
  [0, 1, 8, 0, 6, 4, 0, 2, 2, 0, 0, 0, 0, 0x63, 198, 51, 100, 7, 2, 0, 0, 0, 0, 1, 0, 0, 0, 0]

/-- A matching reply of 192.0.2.5 with hardware address 02:00:00:00:00:FE: 28 bytes. -/
def matching_frame : List Nat :=
  [0, 1, 8, 0, 6, 4, 0, 2, 2, 0, 0, 0, 0, 0xFE, 192, 0, 2, 5, 2, 0, 0, 0, 0, 1, 0, 0, 0, 0]

/-- An ARP probe of another host for 192.0.2.99 (`op = 1`): 28 bytes. -/
def probe_frame : List Nat :=
  [0, 1, 8, 0, 6, 4, 0, 1, 2, 0, 0, 0, 0, 0x63, 0, 0, 0, 0, 0, 0, 0, 0, 0, 0, 192, 0, 2, 99]

/-- The first 24 bytes of a reply of 192.0.2.5: its target protocol address is cut off. -/
def short_frame : List Nat :=
  [0, 1, 8, 0, 6, 4, 0, 2, 2, 0, 0, 0, 0, 0xFE, 192, 0, 2, 5, 2, 0, 0, 0, 0, 1]

/-- The run of `env_example` that receives `foreign_frame`, then `short_frame`. -/
def env_short : Env :=
  { env_example with recv := [.datagram foreign_frame, .datagram short_frame] }

/-- The run of `env_example` in which `errno` holds `EINTR` when the loop is
entered and the first `recvfrom` returns 0. -/
def env_zero : Env := { env_example with errno := EINTR, recv := [.datagram []] }

/-- The run of `env_example` on an interface without hardware address. -/
def env_halen0 : Env := { env_example with me := ⟨0, [0, 0, 0, 0, 0, 0, 0, 0]⟩ }

/-- The run of `env_example` on an interface whose hardware address has 4 bytes. -/
def env_halen4 : Env := { env_example with me := ⟨4, [10, 0, 0, 1, 0, 0, 0, 0]⟩ }

/-! ## Theorems -/

/-- `strncmp` of an array with itself is 0. -/
theorem strncmp_self (a : List Nat) (n : Nat) : strncmp a a n = 0 := by
  induction a generalizing n with
  | nil => cases n <;> simp [strncmp]
  | cons x xs ih =>
    cases n with
    | zero => simp [strncmp]
    | succ k => simp [strncmp, ih]

/-- A list of length 4 is four elements. -/
theorem length_four {l : List Nat} (h : l.length = 4) : ∃ a b c d, l = [a, b, c, d] := by
  rcases l with _ | ⟨a, _ | ⟨b, _ | ⟨c, _ | ⟨d, _ | ⟨e, l⟩⟩⟩⟩⟩ <;> simp at h
  exact ⟨a, b, c, d, rfl⟩

/-- A list of length 6 is six elements. -/
theorem length_six {l : List Nat} (h : l.length = 6) : ∃ a b c d e f, l = [a, b, c, d, e, f] := by
  rcases l with _ | ⟨a, _ | ⟨b, _ | ⟨c, _ | ⟨d, _ | ⟨e, _ | ⟨f, _ | ⟨g, l⟩⟩⟩⟩⟩⟩⟩ <;> simp at h
  exact ⟨a, b, c, d, e, f, rfl⟩

set_option maxRecDepth 100000

/-- On a byte `%02X` prints the two digits of the specification. -/
theorem printf_02X_byte : ∀ b < 256, printf_02X b = spec_hex2 b := by
  decide

set_option maxRecDepth 512

/-- On six bytes `printf` writes the line of the specification. -/
theorem printf_mac_spec (b0 b1 b2 b3 b4 b5 : Nat) (h0 : b0 < 256) (h1 : b1 < 256)
    (h2 : b2 < 256) (h3 : b3 < 256) (h4 : b4 < 256) (h5 : b5 < 256) :
    printf_mac [b0, b1, b2, b3, b4, b5] = spec_mac_line b0 b1 b2 b3 b4 b5 := by
  simp only [printf_mac, spec_mac_line, List.getD_cons_zero, List.getD_cons_succ,
    printf_02X_byte _ h0, printf_02X_byte _ h1, printf_02X_byte _ h2, printf_02X_byte _ h3,
    printf_02X_byte _ h4, printf_02X_byte _ h5]
  simp [spec_hex2]

/-- The line of the specification has 18 characters. -/
theorem spec_mac_line_length (b0 b1 b2 b3 b4 b5 : Nat) :
    (spec_mac_line b0 b1 b2 b3 b4 b5).length = 18 := by
  simp [spec_mac_line, spec_hex2]

/-- Six consecutive bytes of memory, by their offsets. -/
theorem take_drop_six (l : List Nat) (i : Nat) (h : i + 6 ≤ l.length) :
    (l.drop i).take 6
      = [l.getD i 0, l.getD (i + 1) 0, l.getD (i + 2) 0, l.getD (i + 3) 0, l.getD (i + 4) 0,
          l.getD (i + 5) 0] := by
  induction i generalizing l with
  | zero =>
    rcases l with _ | ⟨a, _ | ⟨b, _ | ⟨c, _ | ⟨d, _ | ⟨e, _ | ⟨f, l⟩⟩⟩⟩⟩⟩ <;> simp at h
    simp
  | succ k ih =>
    cases l with
    | nil => simp at h
    | cons a t =>
      have ht : k + 6 ≤ t.length := by
        rw [List.length_cons] at h; omega
      have e1 : k + 1 + 1 = (k + 1) + 1 := rfl
      have e2 : k + 1 + 2 = (k + 2) + 1 := by omega
      have e3 : k + 1 + 3 = (k + 3) + 1 := by omega
      have e4 : k + 1 + 4 = (k + 4) + 1 := by omega
      have e5 : k + 1 + 5 = (k + 5) + 1 := by omega
      rw [List.drop_succ_cons, e2, e3, e4, e5]
      simp only [List.getD_cons_succ]
      exact ih t ht

/-- The sender hardware address of a 28-byte frame is its bytes 8 to 13. -/
theorem ofBytes_sha (le : Bool) (m : List Nat) (h : m.length = 28) :
    (ether_arp.ofBytes le m).arp_sha
      = [m.getD 8 0, m.getD 9 0, m.getD 10 0, m.getD 11 0, m.getD 12 0, m.getD 13 0] :=
  take_drop_six m 8 (by omega)

/-- On a 28-byte frame of bytes `printf` writes the line of the specification
for the bytes 8 to 13. -/
theorem printf_mac_frame (le : Bool) (m : List Nat) (h : m.length = 28)
    (hb : ∀ b ∈ m, b < 256) :
    printf_mac (ether_arp.ofBytes le m).arp_sha
      = spec_mac_line (m.getD 8 0) (m.getD 9 0) (m.getD 10 0) (m.getD 11 0) (m.getD 12 0)
          (m.getD 13 0) := by
  have hs := ofBytes_sha le m h
  have hmem : ∀ b ∈ [m.getD 8 0, m.getD 9 0, m.getD 10 0, m.getD 11 0, m.getD 12 0,
      m.getD 13 0], b < 256 := by
    intro b hm
    rw [← hs] at hm
    exact hb b (List.mem_of_mem_drop (List.mem_of_mem_take hm))
  rw [hs]
  exact printf_mac_spec _ _ _ _ _ _ (hmem _ (by simp)) (hmem _ (by simp)) (hmem _ (by simp))
    (hmem _ (by simp)) (hmem _ (by simp)) (hmem _ (by simp))

/-- Only the first 28 bytes of memory are seen through `struct ether_arp`. -/
theorem ofBytes_append (le : Bool) (m t : List Nat) (h : m.length = 28) :
    ether_arp.ofBytes le (m ++ t) = ether_arp.ofBytes le m := by
  have e : ∀ n, n ≤ 28 → (m ++ t).take n = m.take n := fun n hn =>
    List.take_append_of_le_length (by omega)
  have g : ∀ i, i < 28 → (m ++ t).getD i 0 = m.getD i 0 := fun i hi => by
    rw [List.getD_append _ _ _ _ (by omega)]
  have d : ∀ i k, i + k ≤ 28 → ((m ++ t).drop i).take k = (m.drop i).take k := fun i k hik => by
    rw [List.drop_append_of_le_length (by omega), List.take_append_of_le_length]
    rw [List.length_drop]; omega
  simp only [ether_arp.ofBytes]
  rw [g 0, g 1, g 2, g 3, g 4, g 5, g 6, g 7, d 8 6, d 14 4, d 18 6, d 24 4] <;> omega

/-- A 28-byte datagram replaces the whole of `response` as far as `check_reply`
and `printf` can see. -/
theorem recvfrom_full (errno : Nat) (response f : List Nat) (h : f.length = 28) :
    recvfrom errno response sizeof_ether_arp (.datagram f)
      = (28, errno, f ++ response.drop 28) := by
  simp [recvfrom, sizeof_ether_arp, h]

/-- A rejected full frame is skipped. -/
theorem wait_reply_reject (le : Bool) (req : ether_arp) (errno : Nat) (response f : List Nat)
    (rest : List RecvEvent) (hlen : f.length = 28)
    (hrej : check_reply le req (ether_arp.ofBytes le f) ≠ ERR_SUCCESS) :
    wait_reply le req errno response (.datagram f :: rest)
      = wait_reply le req errno (f ++ response.drop 28) rest := by
  have hrej2 : check_reply le req (ether_arp.ofBytes le (f ++ response.drop 28)) ≠ 0 := by
    rw [ofBytes_append le f _ hlen]; exact hrej
  simp only [wait_reply]
  rw [receive_loop, recvfrom_full errno response f hlen]
  simp [hrej2]

/-- An accepted full frame ends the loop and its `sha` is printed. -/
theorem wait_reply_accept (le : Bool) (req : ether_arp) (errno : Nat) (response f : List Nat)
    (rest : List RecvEvent) (hlen : f.length = 28)
    (hacc : check_reply le req (ether_arp.ofBytes le f) = ERR_SUCCESS) :
    wait_reply le req errno response (.datagram f :: rest)
      = (some 0, printf_mac (ether_arp.ofBytes le f).arp_sha) := by
  have hacc0 : check_reply le req (ether_arp.ofBytes le f) = 0 := hacc
  simp only [wait_reply]
  rw [receive_loop, recvfrom_full errno response f hlen]
  simp [hacc0, ofBytes_append le f _ hlen, ERR_SUCCESS]

/-- A failed `recvfrom` ends the loop: status 1 on `EINTR`, 3 on another error. -/
theorem wait_reply_fail (le : Bool) (req : ether_arp) (errno e : Nat) (response : List Nat)
    (rest : List RecvEvent) :
    wait_reply le req errno response (.fail e :: rest)
      = (some (if e = EINTR then 1 else 3), "") := by
  simp only [wait_reply]
  rw [receive_loop]
  by_cases h : e = EINTR <;> simp [recvfrom, h, ERR_FAIL, ERR_SYS]

/-- A result that does not depend on the content of `response` is not changed
by rejected full frames received before. -/
theorem wait_reply_skip (le : Bool) (req : ether_arp) (errno : Nat) (pre : List (List Nat))
    (tail : List RecvEvent) (r : Option Int × String)
    (hpre : ∀ f ∈ pre, f.length = 28 ∧ check_reply le req (ether_arp.ofBytes le f) ≠ ERR_SUCCESS)
    (htail : ∀ response, wait_reply le req errno response tail = r) :
    ∀ response, wait_reply le req errno response (pre.map RecvEvent.datagram ++ tail) = r := by
  induction pre with
  | nil => simpa using htail
  | cons f fs ih =>
    intro response
    have hf := hpre f (List.mem_cons_self f fs)
    rw [List.map_cons, List.cons_append, wait_reply_reject le req errno response f _ hf.1 hf.2]
    exact ih (fun g hg => hpre g (List.mem_cons_of_mem f hg)) _

/-- Claim C1 (code defect): `check_reply` accepts a reply whose sender protocol
address differs from the address asked about.  Probing 192.0.2.5, the reply of
192.0.2.99 is reported as a match on either byte order, because `strncmp` stops
at the zero byte the two addresses share in second position. -/
theorem check_reply_accepts_other_host : ∀ le : Bool,
    check_reply le (req_example le) (reply_other_host le) = ERR_SUCCESS
      ∧ (reply_other_host le).arp_spa ≠ (req_example le).arp_tpa := by
  intro le
  cases le <;> exact ⟨by rfl, by decide⟩

/-- Claim C2: a reply that `check_reply` reports as a match has `hrd = 1`,
`pro = 0x0800`, `hln = 6`, `pln = 4` and `op = 2`, the 16-bit fields read in
network byte order; a reply in which one of the five differs is rejected with
`ERR_FAIL`, whatever the request and the address fields are. -/
theorem check_reply_header (le : Bool) (req reply : ether_arp) :
    (check_reply le req reply = ERR_SUCCESS →
      ntohs le reply.arp_hrd = 1 ∧ ntohs le reply.arp_pro = 0x0800 ∧ reply.arp_hln = 6
        ∧ reply.arp_pln = 4 ∧ ntohs le reply.arp_op = 2)
    ∧ (¬ (ntohs le reply.arp_hrd = 1 ∧ ntohs le reply.arp_pro = 0x0800 ∧ reply.arp_hln = 6
        ∧ reply.arp_pln = 4 ∧ ntohs le reply.arp_op = 2) →
      check_reply le req reply = ERR_FAIL) := by
  have key : check_reply le req reply = ERR_FAIL ∨
      (ntohs le reply.arp_hrd = 1 ∧ ntohs le reply.arp_pro = 0x0800 ∧ reply.arp_hln = 6
        ∧ reply.arp_pln = 4 ∧ ntohs le reply.arp_op = 2) := by
    unfold check_reply
    split
    · exact Or.inl rfl
    · rename_i h
      push_neg at h
      obtain ⟨h1, h2, h3, h4, h5⟩ := h
      right
      rw [h1, h2, h3, h4, h5]
      cases le <;> decide
  constructor
  · intro h
    rcases key with k | k
    · rw [k] at h; exact absurd h (by decide)
    · exact k
  · intro h
    rcases key with k | k
    · exact k
    · exact absurd k h

/-- Witness of `check_reply_header`: a matching reply, and a request frame
carrying the same addresses. -/
theorem check_reply_header_witness :
    (ntohs true (synth_reply true (req_example true) [2, 0, 0, 0, 0, 0xFE]).arp_hrd = 1
      ∧ ntohs true (synth_reply true (req_example true) [2, 0, 0, 0, 0, 0xFE]).arp_pro = 0x0800
      ∧ (synth_reply true (req_example true) [2, 0, 0, 0, 0, 0xFE]).arp_hln = 6
      ∧ (synth_reply true (req_example true) [2, 0, 0, 0, 0, 0xFE]).arp_pln = 4
      ∧ ntohs true (synth_reply true (req_example true) [2, 0, 0, 0, 0, 0xFE]).arp_op = 2)
    ∧ check_reply true (req_example true) (request_as_reply true) = ERR_FAIL :=
  ⟨(check_reply_header true (req_example true)
      (synth_reply true (req_example true) [2, 0, 0, 0, 0, 0xFE])).1 (by rfl),
    (check_reply_header true (req_example true) (request_as_reply true)).2 (by decide)⟩

/-- The synthesized reply is accepted. -/
theorem check_reply_synth (le : Bool) (req : ether_arp) (X : List Nat) :
    check_reply le req (synth_reply le req X) = ERR_SUCCESS := by
  simp [check_reply, synth_reply, strncmp_self, ARPHRD_ETHER, ETH_P_IP, ETHER_ADDR_LEN,
    sizeof_in_addr_t, ARPOP_REPLY]

/-- The synthesized reply is 28 bytes in memory and is read back unchanged. -/
theorem ofBytes_toBytes_synth (le : Bool) (req : ether_arp) (X : List Nat)
    (hX : X.length = 6) (hsha : req.arp_sha.length = 6) (hspa : req.arp_spa.length = 4)
    (htpa : req.arp_tpa.length = 4) :
    ((synth_reply le req X).toBytes le).length = 28
      ∧ ether_arp.ofBytes le ((synth_reply le req X).toBytes le) = synth_reply le req X := by
  obtain ⟨hrd, pro, hln, pln, op, sha, spa, tha, tpa⟩ := req
  simp only at hsha hspa htpa
  obtain ⟨x0, x1, x2, x3, x4, x5, rfl⟩ := length_six hX
  obtain ⟨s0, s1, s2, s3, s4, s5, rfl⟩ := length_six hsha
  obtain ⟨p0, p1, p2, p3, rfl⟩ := length_four hspa
  obtain ⟨t0, t1, t2, t3, rfl⟩ := length_four htpa
  cases le <;> refine ⟨by rfl, ?_⟩ <;>
    simp only [synth_reply, ether_arp.toBytes, ether_arp.ofBytes, store16, load16, htons] <;> rfl

/-- Claim C3: for every request and every 6-byte hardware address
`X = x0:x1:x2:x3:x4:x5` the synthesized reply (`op = 2`, `sha = X`,
`spa = req.tpa`, `tha = req.sha`, `tpa = req.spa`) is accepted by `check_reply`,
and when its 28 bytes are the frame that ends the receive loop, after any
number of rejected frames, `main` exits with status 0 and the line it prints is
the line of the specification for `X`. -/
theorem synth_reply_found (le : Bool) (req : ether_arp) (x0 x1 x2 x3 x4 x5 : Nat) (errno : Nat)
    (response : List Nat) (pre : List (List Nat)) (rest : List RecvEvent)
    (h0 : x0 < 256) (h1 : x1 < 256) (h2 : x2 < 256) (h3 : x3 < 256) (h4 : x4 < 256)
    (h5 : x5 < 256)
    (hsha : req.arp_sha.length = 6) (hspa : req.arp_spa.length = 4)
    (htpa : req.arp_tpa.length = 4)
    (hpre : ∀ f ∈ pre, f.length = 28 ∧ check_reply le req (ether_arp.ofBytes le f) ≠ ERR_SUCCESS) :
    check_reply le req (synth_reply le req [x0, x1, x2, x3, x4, x5]) = ERR_SUCCESS
      ∧ wait_reply le req errno response
          (pre.map RecvEvent.datagram
            ++ .datagram ((synth_reply le req [x0, x1, x2, x3, x4, x5]).toBytes le) :: rest)
        = (some 0, spec_mac_line x0 x1 x2 x3 x4 x5) := by
  refine ⟨check_reply_synth le req _, ?_⟩
  obtain ⟨hlen, hrt⟩ := ofBytes_toBytes_synth le req [x0, x1, x2, x3, x4, x5] rfl hsha hspa htpa
  refine wait_reply_skip le req errno pre _ _ hpre (fun response1 => ?_) response
  rw [wait_reply_accept le req errno response1 _ rest hlen
    (by rw [hrt]; exact check_reply_synth le req _), hrt]
  exact congrArg (Prod.mk (some (0 : Int))) (printf_mac_spec x0 x1 x2 x3 x4 x5 h0 h1 h2 h3 h4 h5)

/-- Witness of `synth_reply_found`: the reply of 02:00:00:00:00:FE after one
frame of another host is accepted and `02:00:00:00:00:FE` is printed. -/
theorem synth_reply_found_witness :
    check_reply true (req_example true) (synth_reply true (req_example true) [2, 0, 0, 0, 0, 0xFE])
        = ERR_SUCCESS
      ∧ wait_reply true (req_example true) 0 (List.replicate 28 0)
          ([foreign_frame].map RecvEvent.datagram
            ++ .datagram ((synth_reply true (req_example true) [2, 0, 0, 0, 0, 0xFE]).toBytes true)
              :: [])
        = (some 0, "02:00:00:00:00:FE\n") :=
  synth_reply_found true (req_example true) 2 0 0 0 0 0xFE 0 (List.replicate 28 0)
    [foreign_frame] [] (by decide) (by decide) (by decide) (by decide) (by decide) (by decide)
    (by rfl) (by rfl) (by rfl)
    (by
      intro f hf
      rw [List.mem_singleton] at hf
      subst hf
      exact ⟨by rfl, by decide⟩)

/-- Claim C4: the receive loop goes on while the received frame is not a match
and ends on the first match.  After any sequence of full 28-byte frames that
`check_reply` rejects, a matching frame `R` gives exit status 0 and the line of
the specification for the sender hardware address of `R`, the bytes 8 to 13 of
the frame; an interruption (`errno = EINTR`) gives exit status 1, and any other
receive error gives exit status 3, in the last two cases with nothing printed. -/
theorem wait_reply_first_decisive (le : Bool) (req : ether_arp) (errno : Nat)
    (response : List Nat) (pre : List (List Nat)) (rest : List RecvEvent)
    (hpre : ∀ f ∈ pre, f.length = 28 ∧ check_reply le req (ether_arp.ofBytes le f) ≠ ERR_SUCCESS) :
    (∀ R : List Nat, R.length = 28 → (∀ b ∈ R, b < 256) →
        check_reply le req (ether_arp.ofBytes le R) = ERR_SUCCESS →
        (ether_arp.ofBytes le R).arp_sha
            = [R.getD 8 0, R.getD 9 0, R.getD 10 0, R.getD 11 0, R.getD 12 0, R.getD 13 0]
          ∧ wait_reply le req errno response (pre.map RecvEvent.datagram ++ .datagram R :: rest)
            = (some 0, spec_mac_line (R.getD 8 0) (R.getD 9 0) (R.getD 10 0) (R.getD 11 0)
                (R.getD 12 0) (R.getD 13 0)))
    ∧ wait_reply le req errno response (pre.map RecvEvent.datagram ++ .fail EINTR :: rest)
        = (some 1, "")
    ∧ (∀ e : Nat, e ≠ EINTR →
        wait_reply le req errno response (pre.map RecvEvent.datagram ++ .fail e :: rest)
          = (some 3, "")) := by
  refine ⟨fun R hR hb hacc => ⟨ofBytes_sha le R hR, ?_⟩, ?_, fun e he => ?_⟩
  · rw [← printf_mac_frame le R hR hb]
    exact wait_reply_skip le req errno pre _ _ hpre
      (fun response1 => wait_reply_accept le req errno response1 R rest hR hacc) response
  · exact wait_reply_skip le req errno pre _ _ hpre
      (fun response1 => by rw [wait_reply_fail]; simp) response
  · exact wait_reply_skip le req errno pre _ _ hpre
      (fun response1 => by rw [wait_reply_fail]; simp [he]) response

/-- Witness of `wait_reply_first_decisive`: after one rejected frame, a
matching frame of 02:00:00:00:00:FE, an interruption and the error 5 (`EIO`). -/
theorem wait_reply_first_decisive_witness :
    wait_reply true (req_example true) 0 (List.replicate 28 0)
        ([foreign_frame].map RecvEvent.datagram ++ .datagram matching_frame :: [])
      = (some 0, "02:00:00:00:00:FE\n")
    ∧ wait_reply true (req_example true) 0 (List.replicate 28 0)
          ([foreign_frame].map RecvEvent.datagram ++ .fail EINTR :: [])
        = (some 1, "")
    ∧ wait_reply true (req_example true) 0 (List.replicate 28 0)
          ([foreign_frame].map RecvEvent.datagram ++ .fail 5 :: [])
        = (some 3, "") :=
  have hpre : ∀ f ∈ [foreign_frame], f.length = 28
      ∧ check_reply true (req_example true) (ether_arp.ofBytes true f) ≠ ERR_SUCCESS := by
    intro f hf
    rw [List.mem_singleton] at hf
    subst hf
    exact ⟨by rfl, by decide⟩
  ⟨((wait_reply_first_decisive true (req_example true) 0 (List.replicate 28 0) [foreign_frame] []
      hpre).1 matching_frame (by rfl) (by decide) (by rfl)).2,
    (wait_reply_first_decisive true (req_example true) 0 (List.replicate 28 0) [foreign_frame] []
      hpre).2.1,
    (wait_reply_first_decisive true (req_example true) 0 (List.replicate 28 0) [foreign_frame] []
      hpre).2.2 5 (by decide)⟩

/-- The bytes of the request in memory. -/
theorem build_request_bytes (le : Bool) (me : sockaddr_ll) (T : List Nat)
    (hH : me.sll_addr.length = 8) (hT : T.length = 4) :
    (build_request le me T).toBytes le
        = [0, 1, 8, 0, 6, 4, 0, 1] ++ me.sll_addr.take 6 ++ [0, 0, 0, 0] ++ [0, 0, 0, 0, 0, 0] ++ T
      ∧ ((build_request le me T).toBytes le).length = 28 := by
  have hT2 : T.take 4 = T := List.take_of_length_le (by omega)
  have hlen : (me.sll_addr.take 6).length = 6 := by rw [List.length_take]; omega
  constructor
  · cases le <;>
      simp only [build_request, ether_arp.toBytes, store16, htons, ARPHRD_ETHER, ETH_P_IP,
        ETHER_ADDR_LEN, sizeof_in_addr_t, ARPOP_REQUEST, sizeof_arp_sha, sizeof_arp_spa,
        sizeof_arp_tha, sizeof_arp_tpa, hT2] <;> rfl
  · cases le <;>
      simp only [build_request, ether_arp.toBytes, store16, htons, ARPHRD_ETHER, ETH_P_IP,
        ETHER_ADDR_LEN, sizeof_in_addr_t, ARPOP_REQUEST, sizeof_arp_sha, sizeof_arp_spa,
        sizeof_arp_tha, sizeof_arp_tpa, hT2] <;>
      simp [hlen, hT]

/-- When every call up to `getsockname` succeeds, `main` calls `sendto` exactly
when `sll_halen` is not 0, and then with the 28 bytes of the request. -/
theorem main_sendto_arg (env : Env) (t : Nat) (iface ip : String) (T : List Nat)
    (hopt : getopt_loop 1 env.opts = .ok t) (hargs : env.args = [iface, ip])
    (hip : env.inet_aton ip = some T) (hfd : env.find_device = 0) (hsock : env.socket ≠ -1)
    (hbind : env.bind ≠ -1) (hgsn : env.getsockname ≠ -1) :
    (env.me.sll_halen = 0 → main env = ⟨some 3, "", none, none⟩)
      ∧ (env.me.sll_halen ≠ 0 → (main env).sendto_arg
          = some (((build_request env.le env.me T).toBytes env.le).take sizeof_ether_arp)) := by
  constructor
  · intro h
    simp [main, hopt, hargs, hip, hfd, hsock, hbind, hgsn, h, ERR_SYS]
  · intro h
    simp only [main, hopt, hargs, hip, hfd, hsock, hbind, hgsn, h]
    simp only [ne_eq, not_true_eq_false, if_false]
    split
    · rfl
    · split <;> rfl

/-- Claim C5: when every call before `sendto` succeeds, the buffer `main`
passes to `sendto` is the 28 bytes `00 01 08 00 06 04 00 01`, the first six
bytes of the address `getsockname` reported, four zero bytes, six zero bytes
and the four bytes of the target address, on either host byte order. -/
theorem main_request_bytes (env : Env) (t : Nat) (iface ip : String) (T : List Nat)
    (hopt : getopt_loop 1 env.opts = .ok t) (hargs : env.args = [iface, ip])
    (hip : env.inet_aton ip = some T) (hfd : env.find_device = 0) (hsock : env.socket ≠ -1)
    (hbind : env.bind ≠ -1) (hgsn : env.getsockname ≠ -1) (hhalen : env.me.sll_halen ≠ 0)
    (hH : env.me.sll_addr.length = 8) (hT : T.length = 4) :
    (main env).sendto_arg
        = some ([0, 1, 8, 0, 6, 4, 0, 1] ++ env.me.sll_addr.take 6 ++ [0, 0, 0, 0]
            ++ [0, 0, 0, 0, 0, 0] ++ T)
      ∧ ([0, 1, 8, 0, 6, 4, 0, 1] ++ env.me.sll_addr.take 6 ++ [0, 0, 0, 0]
            ++ [0, 0, 0, 0, 0, 0] ++ T).length = 28 := by
  obtain ⟨hb, hl⟩ := build_request_bytes env.le env.me T hH hT
  rw [(main_sendto_arg env t iface ip T hopt hargs hip hfd hsock hbind hgsn).2 hhalen,
    List.take_of_length_le (by rw [hl]; decide), ← hb]
  exact ⟨rfl, hl⟩

/-- Witness of `main_request_bytes`: the request of `env_example`. -/
theorem main_request_bytes_witness :
    (main env_example).sendto_arg
        = some ([0, 1, 8, 0, 6, 4, 0, 1] ++ [2, 0, 0, 0, 0, 1] ++ [0, 0, 0, 0]
            ++ [0, 0, 0, 0, 0, 0] ++ [192, 0, 2, 5])
      ∧ ([0, 1, 8, 0, 6, 4, 0, 1] ++ [2, 0, 0, 0, 0, 1] ++ [0, 0, 0, 0]
            ++ [0, 0, 0, 0, 0, 0] ++ [192, 0, 2, 5]).length = 28 :=
  main_request_bytes env_example 2 "eth0" "192.0.2.5" [192, 0, 2, 5] (by rfl) rfl rfl rfl
    (by decide) (by decide) (by decide) (by decide) rfl rfl

/-- Claim C10, amended: when every call up to `getsockname` succeeds, `main`
builds and sends a request exactly when the reported hardware-address length
is not 0; a length of 0 gives exit status 3 with nothing sent. -/
theorem main_halen_gate (env : Env) (t : Nat) (iface ip : String) (T : List Nat)
    (hopt : getopt_loop 1 env.opts = .ok t) (hargs : env.args = [iface, ip])
    (hip : env.inet_aton ip = some T) (hfd : env.find_device = 0) (hsock : env.socket ≠ -1)
    (hbind : env.bind ≠ -1) (hgsn : env.getsockname ≠ -1) :
    ((main env).sendto_arg ≠ none ↔ env.me.sll_halen ≠ 0)
      ∧ (env.me.sll_halen = 0 → (main env).status = some 3 ∧ (main env).sendto_arg = none) := by
  obtain ⟨h0, h1⟩ := main_sendto_arg env t iface ip T hopt hargs hip hfd hsock hbind hgsn
  refine ⟨⟨fun hs hz => hs ?_, fun hnz => ?_⟩, fun hz => ?_⟩
  · rw [h0 hz]
  · rw [h1 hnz]; simp
  · rw [h0 hz]; exact ⟨rfl, rfl⟩

/-- Witness of `main_halen_gate`: the run of `env_example` sends, the same run
with a reported length of 0 exits with status 3 and sends nothing. -/
theorem main_halen_gate_witness :
    (main env_example).sendto_arg ≠ none
      ∧ (main env_halen0).status = some 3 ∧ (main env_halen0).sendto_arg = none :=
  ⟨(main_halen_gate env_example 2 "eth0" "192.0.2.5" [192, 0, 2, 5] (by rfl) rfl rfl rfl
      (by decide) (by decide) (by decide)).1.mpr (by decide),
    (main_halen_gate env_halen0 2 "eth0" "192.0.2.5" [192, 0, 2, 5] (by rfl) rfl rfl rfl
      (by decide) (by decide) (by decide)).2 rfl⟩

/-- Claim C6 (code defect): the argument `-1` of `-w` is not rejected.  `atoi`
gives -1, the store into `unsigned int` gives 4294967295, the test for 0 passes
and `alarm` is called with 4294967295. -/
theorem negative_timeout_accepted :
    atoi "-1" = -1
      ∧ getopt_loop 1 [('w', "-1")] = .ok 4294967295
      ∧ (main env_negative_timeout).status = some 0
      ∧ (main env_negative_timeout).alarm_arg = some 4294967295 := by
  refine ⟨by rfl, by rfl, by rfl, by rfl⟩

/-- Claim C7 as stated fails: after a rejected frame of another host, a receive
of 24 bytes ends the loop, and `main` exits with status 0 and prints a hardware
address. -/
theorem short_receive_found :
    short_frame.length = 24
      ∧ (main { env_example with recv := [.datagram foreign_frame] }).status = none
      ∧ (main env_short).status = some 0
      ∧ (main env_short).stdout = "02:00:00:00:00:FE\n" := by
  refine ⟨by rfl, by rfl, by rfl, by rfl⟩

/-- Claim C7, amended: a receive of `n` bytes with `0 < n < 28` overwrites the
first `n` bytes of `response` and is judged on the merged buffer, the `n`
received bytes followed by the bytes left from before; when `check_reply`
rejects the merged buffer the receive is ignored and the loop continues to the
next receive with the merged buffer in `response`. -/
theorem wait_reply_short (le : Bool) (req : ether_arp) (errno : Nat) (response data : List Nat)
    (rest : List RecvEvent) (hpos : 0 < data.length) (hshort : data.length < 28)
    (hrej : check_reply le req (ether_arp.ofBytes le (data ++ response.drop data.length))
      ≠ ERR_SUCCESS) :
    (recvfrom errno response sizeof_ether_arp (.datagram data)).2.2
        = data ++ response.drop data.length
      ∧ wait_reply le req errno response (.datagram data :: rest)
        = wait_reply le req errno (data ++ response.drop data.length) rest := by
  have hmin : min data.length 28 = data.length := by omega
  have hne : data ≠ [] := by
    intro h; rw [h] at hpos; exact absurd hpos (by decide)
  have hc : ¬ check_reply le req (ether_arp.ofBytes le (data ++ response.drop data.length)) = 0 :=
    hrej
  refine ⟨by simp [recvfrom, sizeof_ether_arp, hmin], ?_⟩
  simp only [wait_reply]
  rw [receive_loop]
  simp only [recvfrom, sizeof_ether_arp, hmin, List.take_length]
  simp [hc, hne]

/-- Witness of `wait_reply_short`: `short_frame` received over `probe_frame`. -/
theorem wait_reply_short_witness :
    (recvfrom 0 probe_frame sizeof_ether_arp (.datagram short_frame)).2.2
        = short_frame ++ probe_frame.drop short_frame.length
      ∧ wait_reply true (req_example true) 0 probe_frame (.datagram short_frame :: [])
        = wait_reply true (req_example true) 0
            (short_frame ++ probe_frame.drop short_frame.length) [] :=
  wait_reply_short true (req_example true) 0 probe_frame short_frame [] (by decide) (by decide)
    (by decide)

/-- Claim C9 as stated fails: with `errno = EINTR` left from before, a
`recvfrom` that returns 0 makes `main` exit with status 1. -/
theorem recv_zero_eintr :
    (recvfrom env_zero.errno env_zero.response sizeof_ether_arp (.datagram [])).1 = 0
      ∧ (main env_zero).status = some 1 := by
  refine ⟨by rfl, by rfl⟩

/-- Claim C9, amended: whenever `recvfrom` returns 0 in the receive loop and
`errno` does not hold `EINTR`, `main` exits with status 3 and prints nothing;
whatever `errno` holds, a return of 0 never gives exit status 0. -/
theorem recv_zero_status (le : Bool) (req : ether_arp) (errno : Nat) (response : List Nat)
    (ev : RecvEvent) (rest : List RecvEvent)
    (hret : (recvfrom errno response sizeof_ether_arp ev).1 = 0) :
    (errno ≠ EINTR → wait_reply le req errno response (ev :: rest) = (some 3, ""))
      ∧ (wait_reply le req errno response (ev :: rest)).1 ≠ some 0 := by
  cases ev with
  | fail e => simp [recvfrom] at hret
  | datagram data =>
    have hd : data = [] := by
      simp only [recvfrom, sizeof_ether_arp] at hret
      have : min data.length 28 = 0 := by exact_mod_cast hret
      exact List.length_eq_zero.mp (by omega)
    subst hd
    simp only [wait_reply]
    rw [receive_loop]
    by_cases he : errno = EINTR <;> simp [recvfrom, he, ERR_FAIL, ERR_SYS]

/-- Witness of `recv_zero_status`: a return of 0 with `errno = 0`. -/
theorem recv_zero_status_witness :
    wait_reply true (req_example true) 0 foreign_frame [.datagram []] = (some 3, "")
      ∧ (wait_reply true (req_example true) 0 foreign_frame [.datagram []]).1 ≠ some 0 :=
  ⟨(recv_zero_status true (req_example true) 0 foreign_frame (.datagram []) [] (by rfl)).1
      (by decide),
    (recv_zero_status true (req_example true) 0 foreign_frame (.datagram []) [] (by rfl)).2⟩

/-- Claim C10 as stated fails: with a reported hardware-address length of 4,
`main` builds and sends a request. -/
theorem halen4_sends :
    env_halen4.me.sll_halen = 4
      ∧ (main env_halen4).sendto_arg
        = some [0, 1, 8, 0, 6, 4, 0, 1, 10, 0, 0, 1, 0, 0, 0, 0, 0, 0, 0, 0, 0, 0, 0, 0,
            192, 0, 2, 5] := by
  refine ⟨by rfl, by rfl⟩

/-- The loop is only left through `matched` with a 28-byte buffer that
`check_reply` accepts. -/
theorem receive_loop_matched (le : Bool) (req : ether_arp) (events : List RecvEvent) :
    ∀ (errno : Nat) (response r : List Nat), response.length = 28 →
      (∀ b ∈ response, b < 256) →
      (∀ data, RecvEvent.datagram data ∈ events → ∀ b ∈ data, b < 256) →
      receive_loop le req errno response events = .matched r →
      r.length = 28 ∧ (∀ b ∈ r, b < 256)
        ∧ check_reply le req (ether_arp.ofBytes le r) = ERR_SUCCESS := by
  induction events with
  | nil => intro errno response r _ _ _ h; simp [receive_loop] at h
  | cons ev rest ih =>
    intro errno response r hlen hb hev h
    cases ev with
    | fail e =>
      rw [receive_loop] at h
      by_cases he : e = EINTR <;> simp [recvfrom, he] at h
    | datagram data =>
      have hlen1 : (data.take (min data.length 28) ++ response.drop (min data.length 28)).length
          = 28 := by
        rw [List.length_append, List.length_take, List.length_drop]; omega
      have hb1 : ∀ b ∈ data.take (min data.length 28) ++ response.drop (min data.length 28),
          b < 256 := by
        intro b hmem
        rcases List.mem_append.mp hmem with hm | hm
        · exact hev data (List.mem_cons_self _ _) b (List.mem_of_mem_take hm)
        · exact hb b (List.mem_of_mem_drop hm)
      rw [receive_loop] at h
      simp only [recvfrom, sizeof_ether_arp] at h
      split at h
      · split at h <;> simp at h
      · split at h
        · exact ih errno _ r hlen1 hb1
            (fun d hd => hev d (List.mem_cons_of_mem _ hd)) h
        · rename_i hc
          simp only [LoopExit.matched.injEq] at h
          subst h
          exact ⟨hlen1, hb1, not_not.mp hc⟩

/-- A `return` inside the loop is `ERR_FAIL` or `ERR_SYS`. -/
theorem receive_loop_returned (le : Bool) (req : ether_arp) (events : List RecvEvent) :
    ∀ (errno : Nat) (response : List Nat) (code : Int),
      receive_loop le req errno response events = .returned code → code = 1 ∨ code = 3 := by
  induction events with
  | nil => intro errno response code h; simp [receive_loop] at h
  | cons ev rest ih =>
    intro errno response code h
    rw [receive_loop] at h
    split at h
    rename_i recv_ret errno1 response1 _
    split at h
    · split at h <;> simp only [LoopExit.returned.injEq] at h <;> subst h
      · left; rfl
      · right; rfl
    · split at h
      · exact ih _ _ _ h
      · simp at h

/-- The `getopt` loop only fails with `ERR_ARGS`. -/
theorem getopt_loop_error (opts : List (Char × String)) :
    ∀ (timeout : Nat) (code : Int), getopt_loop timeout opts = .error code → code = 2 := by
  induction opts with
  | nil => intro timeout code h; simp [getopt_loop] at h
  | cons o rest ih =>
    intro timeout code h
    obtain ⟨ch, optarg⟩ := o
    rw [getopt_loop] at h
    split at h
    · simp only at h
      split at h
      · simp only [Except.error.injEq] at h; rw [← h]; rfl
      · exact ih _ _ h
    · simp only [Except.error.injEq] at h; rw [← h]; rfl

/-- When the loop is left with a reply in `response`, lines 194-203 exit with
status 0 and print the line of the specification for its bytes 8 to 13, the
sender hardware address. -/
theorem wait_reply_matched (le : Bool) (req : ether_arp) (errno : Nat) (response : List Nat)
    (events : List RecvEvent) (r : List Nat) (hlen : response.length = 28)
    (hresp : ∀ b ∈ response, b < 256)
    (hrecv : ∀ data, RecvEvent.datagram data ∈ events → ∀ b ∈ data, b < 256)
    (hloop : receive_loop le req errno response events = .matched r) :
    check_reply le req (ether_arp.ofBytes le r) = ERR_SUCCESS
      ∧ (ether_arp.ofBytes le r).arp_sha
          = [r.getD 8 0, r.getD 9 0, r.getD 10 0, r.getD 11 0, r.getD 12 0, r.getD 13 0]
      ∧ wait_reply le req errno response events
          = (some 0, spec_mac_line (r.getD 8 0) (r.getD 9 0) (r.getD 10 0) (r.getD 11 0)
              (r.getD 12 0) (r.getD 13 0)) := by
  obtain ⟨hr, hb, hacc⟩ :=
    receive_loop_matched le req events errno response r hlen hresp hrecv hloop
  refine ⟨hacc, ofBytes_sha le r hr, ?_⟩
  simp only [wait_reply, hloop]
  rw [printf_mac_frame le r hr hb]
  rfl

/-- When the loop is not left with a reply, lines 179-203 print nothing and the
status is not 0. -/
theorem wait_reply_unmatched (le : Bool) (req : ether_arp) (errno : Nat) (response : List Nat)
    (events : List RecvEvent)
    (hloop : ∀ r, receive_loop le req errno response events ≠ .matched r) :
    (wait_reply le req errno response events).1 ≠ some 0
      ∧ (wait_reply le req errno response events).2 = "" := by
  cases h : receive_loop le req errno response events with
  | blocked => simp [wait_reply, h]
  | returned code =>
    rcases receive_loop_returned le req events errno response code h with hc | hc <;>
      simp [wait_reply, h, hc]
  | matched r => exact absurd h (hloop r)

/-- When every call before the receive loop succeeds, the status and the
output of `main` are those of lines 179-203 for the request `main` built. -/
theorem main_wait_reply (env : Env) (t : Nat) (iface ip : String) (T : List Nat)
    (hopt : getopt_loop 1 env.opts = .ok t) (hargs : env.args = [iface, ip])
    (hip : env.inet_aton ip = some T) (hfd : env.find_device = 0) (hsock : env.socket ≠ -1)
    (hbind : env.bind ≠ -1) (hgsn : env.getsockname ≠ -1) (hhalen : env.me.sll_halen ≠ 0)
    (hsend : env.sendto ≠ -1) (hsig : ¬ env.sigaction < 0) :
    ((main env).status, (main env).stdout)
      = wait_reply env.le (build_request env.le env.me T) env.errno env.response env.recv := by
  simp [main, hopt, hargs, hip, hfd, hsock, hbind, hgsn, hhalen, hsend, hsig]

/-- Claim C8: with every call before the receive loop successful, whenever the
loop ends with an accepted reply `main` exits with status 0 and writes to
standard output exactly the line of the specification for the six sender
hardware address bytes of that reply (bytes 8 to 13 of the frame): each byte as
two upper-case hexadecimal digits, single colons between them, one newline at
the end, 18 characters in all.  On every path, what `main` writes to standard
output is either nothing, and then the exit status is not 0, or that line for
the reply accepted for the request `main` built. -/
theorem main_stdout (env : Env) (hlen : env.response.length = 28)
    (hresp : ∀ b ∈ env.response, b < 256)
    (hrecv : ∀ data, RecvEvent.datagram data ∈ env.recv → ∀ b ∈ data, b < 256) :
    (∀ (t : Nat) (iface ip : String) (T r : List Nat),
        getopt_loop 1 env.opts = .ok t → env.args = [iface, ip] → env.inet_aton ip = some T →
        env.find_device = 0 → env.socket ≠ -1 → env.bind ≠ -1 → env.getsockname ≠ -1 →
        env.me.sll_halen ≠ 0 → env.sendto ≠ -1 → ¬ env.sigaction < 0 →
        receive_loop env.le (build_request env.le env.me T) env.errno env.response env.recv
          = .matched r →
        (ether_arp.ofBytes env.le r).arp_sha
            = [r.getD 8 0, r.getD 9 0, r.getD 10 0, r.getD 11 0, r.getD 12 0, r.getD 13 0]
          ∧ (main env).status = some 0
          ∧ (main env).stdout = spec_mac_line (r.getD 8 0) (r.getD 9 0) (r.getD 10 0)
              (r.getD 11 0) (r.getD 12 0) (r.getD 13 0)
          ∧ (main env).stdout.length = 18)
    ∧ (((main env).status ≠ some 0 ∧ (main env).stdout = "")
      ∨ ∃ (iface ip : String) (T r : List Nat),
          env.args = [iface, ip] ∧ env.inet_aton ip = some T
          ∧ receive_loop env.le (build_request env.le env.me T) env.errno env.response env.recv
              = .matched r
          ∧ check_reply env.le (build_request env.le env.me T) (ether_arp.ofBytes env.le r)
              = ERR_SUCCESS
          ∧ (main env).status = some 0
          ∧ (main env).stdout = spec_mac_line (r.getD 8 0) (r.getD 9 0) (r.getD 10 0)
              (r.getD 11 0) (r.getD 12 0) (r.getD 13 0)) := by
  constructor
  · intro t iface ip T r hopt hargs hip hfd hsock hbind hgsn hhalen hsend hsig hloop
    have hm := main_wait_reply env t iface ip T hopt hargs hip hfd hsock hbind hgsn hhalen
      hsend hsig
    obtain ⟨_, hs, hw⟩ := wait_reply_matched env.le (build_request env.le env.me T) env.errno
      env.response env.recv r hlen hresp hrecv hloop
    rw [hw] at hm
    have h1 : (main env).status = some 0 := congrArg Prod.fst hm
    have h2 : (main env).stdout = spec_mac_line (r.getD 8 0) (r.getD 9 0) (r.getD 10 0)
        (r.getD 11 0) (r.getD 12 0) (r.getD 13 0) := congrArg Prod.snd hm
    exact ⟨hs, h1, h2, by rw [h2]; exact spec_mac_line_length _ _ _ _ _ _⟩
  · unfold main
    split
    · rename_i code hcode
      left
      rw [getopt_loop_error env.opts 1 code hcode]
      exact ⟨by decide, rfl⟩
    · split
      · rename_i iface ip hargs
        split
        · left; exact ⟨by decide, rfl⟩
        · rename_i s_addr hip
          split
          · left; exact ⟨by decide, rfl⟩
          · split
            · left; exact ⟨by decide, rfl⟩
            · split
              · left; exact ⟨by decide, rfl⟩
              · split
                · left; exact ⟨by decide, rfl⟩
                · split
                  · left; exact ⟨by decide, rfl⟩
                  · simp only
                    split
                    · left; exact ⟨by simp [ERR_SYS], rfl⟩
                    · split
                      · left; exact ⟨by simp [ERR_SYS], rfl⟩
                      · by_cases hex : ∃ r, receive_loop env.le
                            (build_request env.le env.me s_addr) env.errno env.response env.recv
                              = .matched r
                        · right
                          obtain ⟨r, hloop⟩ := hex
                          obtain ⟨hc, _, hw⟩ := wait_reply_matched env.le
                            (build_request env.le env.me s_addr) env.errno env.response env.recv
                            r hlen hresp hrecv hloop
                          refine ⟨iface, ip, s_addr, r, hargs, hip, hloop, hc, ?_, ?_⟩
                          · rw [hw]
                          · rw [hw]
                        · left
                          exact wait_reply_unmatched env.le (build_request env.le env.me s_addr)
                            env.errno env.response env.recv
                            (fun r hr => hex ⟨r, hr⟩)
      · left; exact ⟨by decide, rfl⟩

/-- Witness of `main_stdout`: the run of `env_example` exits with status 0 and
prints `02:00:00:00:00:FE` and a newline, 18 characters. -/
theorem main_stdout_witness :
    (ether_arp.ofBytes true matching_frame).arp_sha = [2, 0, 0, 0, 0, 0xFE]
      ∧ (main env_example).status = some 0
      ∧ (main env_example).stdout = "02:00:00:00:00:FE\n"
      ∧ (main env_example).stdout.length = 18 :=
  (main_stdout env_example (by rfl) (by decide)
    (by
      intro data hd
      simp only [env_example, List.mem_singleton, RecvEvent.datagram.injEq] at hd
      subst hd
      decide)).1 2 "eth0" "192.0.2.5" [192, 0, 2, 5] matching_frame (by rfl) rfl rfl rfl
    (by decide) (by decide) (by decide) (by decide) (by decide) (by decide) (by rfl)

end Arptest
